import Mathlib

/-!
Verification of the skrl `GaussianModel` (skrl/models/torch/gaussian.py).

Shallow embedding conventions:
* Scalars are exact rationals (`ℚ`).  The tensor runtime's transcendental
  primitives (`exp`, `log`, and the Gaussian normalizing constant
  `log √(2π)`) are external collaborators of the layer under specification,
  so they are abstracted as a record of functions (`RealOps`) that every
  definition and theorem is parametric in.
* A batched tensor of shape `[N, D]` is `List (List ℚ)` (`Tensor2`); a
  per-dimension vector of shape `[D]` is `List ℚ` (`Tensor1`).
* The provider contract `compute(states, taken_actions, role)` of the class
  documentation returns a `[N, D]` mean together with a per-dimension
  log-std vector `[D]` (the documented example uses
  `nn.Parameter(torch.zeros(self.num_actions))`), which broadcasts against
  the mean when the `Normal` distribution is built; `get_log_std`'s
  `repeat(num_samples, 1)` relies on that shape.
* The single source of randomness, the standard-normal noise drawn inside
  `rsample`, is passed as an explicit `noise` argument so that sampling is
  a pure function of `(parameters, noise)`.
* `.detach()` only severs autodiff tracking and leaves values unchanged;
  autodiff is outside the embedded state, so the `inference` branch returns
  the same values.
-/

namespace Skrl

/-- Abstracted transcendental primitives of the tensor runtime:
`exp`, `log`, and the constant `log √(2π)` used by the Gaussian density. -/
structure RealOps where
  exp : ℚ → ℚ
  log : ℚ → ℚ
  /-- the constant `log √(2π) = ½ log (2π)` of the normal density -/
  halfLog2Pi : ℚ

/-- A batched tensor of shape `[N, D]`: a list of `N` rows of width `D`. -/
abbrev Tensor2 : Type := List (List ℚ)

/-- A per-dimension tensor of shape `[D]`. -/
abbrev Tensor1 : Type := List ℚ

/-- Three-way `zipWith`, used for elementwise operations that combine a
row with the broadcast per-dimension `scale`/bounds vectors. -/
def zipWith3 (f : ℚ → ℚ → ℚ → ℚ) : List ℚ → List ℚ → List ℚ → List ℚ
  | a :: as, b :: bs, c :: cs => f a b c :: zipWith3 f as bs cs
  | _, _, _ => []

/-- `torch.distributions.Normal(loc, scale)` with `loc : [N, D]` and the
per-dimension `scale : [D]` broadcast across rows. -/
structure NormalDist where
  loc : Tensor2
  scale : Tensor1

/-- Log-density of `Normal(loc=μ, scale=σ)` at `x`:
`-((x - μ)²)/(2σ²) - log σ - log √(2π)`. -/
def normalLogPdf (ops : RealOps) (μ σ x : ℚ) : ℚ :=
  -((x - μ) ^ 2) / (2 * σ ^ 2) - ops.log σ - ops.halfLog2Pi

/-- `Normal.log_prob(value)`: elementwise log-density, `scale` broadcast. -/
def NormalDist.log_prob (d : NormalDist) (ops : RealOps) (value : Tensor2) : Tensor2 :=
  List.zipWith (fun vrow mrow => zipWith3 (fun x μ σ => normalLogPdf ops μ σ x) vrow mrow d.scale)
    value d.loc

/-- `Normal.rsample()` with the standard-normal draw made explicit:
`loc + noise * scale` elementwise, `scale` broadcast. -/
def NormalDist.rsample (d : NormalDist) (noise : Tensor2) : Tensor2 :=
  List.zipWith (fun mrow erow => zipWith3 (fun μ ε σ => μ + ε * σ) mrow erow d.scale)
    d.loc noise

/-- `Normal.entropy()`: elementwise `½ + ½ log(2π) + log σ` on the broadcast
`[N, D]` batch shape. -/
def NormalDist.entropy (d : NormalDist) (ops : RealOps) : Tensor2 :=
  d.loc.map (fun _ => d.scale.map (fun σ => 1 / 2 + ops.halfLog2Pi + ops.log σ))

/-- `torch.clamp(x, min=lo, max=hi)` with per-dimension bound tensors
broadcast across the batch: elementwise `min (max a lo) hi`. -/
def clampRows (x : Tensor2) (lo hi : Tensor1) : Tensor2 :=
  x.map (fun row => zipWith3 (fun a l h => min (max a l) h) row lo hi)

/-- The reduction function stored in `self._reduction`
(`torch.mean` / `torch.sum` / `torch.prod`; the `None` case is the
surrounding `Option`). -/
inductive ReductionFn where
  | tmean : ReductionFn
  | tsum : ReductionFn
  | tprod : ReductionFn
deriving DecidableEq

/-- Apply a stored reduction function along the last axis of one row. -/
def applyReduction : ReductionFn → Tensor1 → ℚ
  | ReductionFn.tmean, row => row.sum / (row.length : ℚ)
  | ReductionFn.tsum, row => row.sum
  | ReductionFn.tprod, row => row.prod

/-- Errors of the layer: the construction-time `ValueError` for a bad
`reduction` (spec: `InvalidConfiguration`), and the failure of an accessor
that needs a prior `act` call (Python: attribute access on `None`;
spec: `NotYetComputed`). -/
inductive ModelError where
  | invalidConfiguration : String → ModelError
  | notYetComputed : ModelError
deriving DecidableEq

/-- The message of the `ValueError` raised for an unrecognized `reduction`. -/
def reductionErrorMessage : String :=
  "reduction must be one of \x27mean\x27, \x27sum\x27, \x27prod\x27 or \x27none\x27"

/-- `charsContain p s` decides whether `p` occurs as a contiguous substring
of `s` (used to state that the error message enumerates the accepted
reduction names). -/
def charsContain (p : List Char) : List Char → Bool
  | [] => p.isEmpty
  | c :: rest => p.isPrefixOf (c :: rest) || charsContain p rest

/-- `GaussianModel` state: configuration fixed by `__init__` plus the
transient per-call fields overwritten by every `act`.  In Python the
`clip_actions_min`/`clip_actions_max` attributes exist only when clipping
is enabled; here they default to `[]` and are never read by `act` when
`clip_actions` is `false`. -/
structure GaussianModel where
  clip_actions : Bool
  clip_actions_min : Tensor1
  clip_actions_max : Tensor1
  clip_log_std : Bool
  log_std_min : ℚ
  log_std_max : ℚ
  _log_std : Option Tensor1
  _num_samples : Option ℕ
  _distribution : Option NormalDist
  _reduction : Option ReductionFn

/-- `GaussianModel.__init__`.  The action space is abstracted to the datum
the constructor consults: `some (low, high)` when the descriptor is a
`gym.Space` carrying per-dimension bounds, `none` when it is a bare
shape.  Raising `ValueError` is modelled by `Except.error`. -/
def GaussianModel.make (action_space : Option (Tensor1 × Tensor1))
    (clip_actions : Bool) (clip_log_std : Bool)
    (min_log_std max_log_std : ℚ) (reduction : String) :
    Except ModelError GaussianModel :=
  let resolved_clip : Bool := clip_actions && action_space.isSome
  if reduction ∉ ["mean", "sum", "prod", "none"] then
    Except.error (ModelError.invalidConfiguration reductionErrorMessage)
  else
    Except.ok
      { clip_actions := resolved_clip
        clip_actions_min := if resolved_clip then (action_space.getD ([], [])).1 else []
        clip_actions_max := if resolved_clip then (action_space.getD ([], [])).2 else []
        clip_log_std := clip_log_std
        log_std_min := min_log_std
        log_std_max := max_log_std
        _log_std := none
        _num_samples := none
        _distribution := none
        _reduction :=
          if reduction == "mean" then some ReductionFn.tmean
          else if reduction == "sum" then some ReductionFn.tsum
          else if reduction == "prod" then some ReductionFn.tprod
          else none }

/-- The provider contract `compute(states, taken_actions, role)`:
returns the `[N, D]` mean and the per-dimension `[D]` log-std. -/
abbrev ComputeFn : Type := Tensor2 → Option Tensor2 → String → Tensor2 × Tensor1

/-- Lines 146–147: `log_std = torch.clamp(log_std, self.log_std_min,
self.log_std_max)` when `clip_log_std` is set, identity otherwise. -/
def GaussianModel.clampLogStd (m : GaussianModel) (log_std : Tensor1) : Tensor1 :=
  if m.clip_log_std then
    log_std.map (fun x => min (max x m.log_std_min) m.log_std_max)
  else log_std

/-- Line 153: the distribution `Normal(actions_mean, log_std.exp())` built
by `act` from the provider output (after the optional log-std clamp). -/
def GaussianModel.builtDist (m : GaussianModel) (ops : RealOps)
    (actions_mean : Tensor2) (log_std : Tensor1) : NormalDist :=
  { loc := actions_mean, scale := (m.clampLogStd log_std).map ops.exp }

/-- Lines 159–163: clamp the sampled actions to the action-space bounds
when `clip_actions` is resolved true.  (The `_backward_compatibility`
branch `max(min(x, hi), lo)` agrees with `clamp` whenever `lo ≤ hi`.) -/
def GaussianModel.clipActionsStep (m : GaussianModel) (actions : Tensor2) : Tensor2 :=
  if m.clip_actions then clampRows actions m.clip_actions_min m.clip_actions_max
  else actions

/-- Lines 167–170: reduce the per-dimension log-probability along the last
axis (`self._reduction(log_prob, dim=-1)`), then, since reducing a rank-2
batch drops the rank below that of `actions`, `unsqueeze(-1)`; with
`reduction="none"` (`self._reduction is None`) the tensor is untouched and
the ranks already match. -/
def GaussianModel.reduceLogProb (m : GaussianModel) (log_prob : Tensor2) : Tensor2 :=
  match m._reduction with
  | some r => (log_prob.map (applyReduction r)).map (fun v => [v])
  | none => log_prob

/-- The triple returned by `act`. -/
structure ActOutput where
  actions : Tensor2
  log_prob : Tensor2
  mean_actions : Tensor2
deriving DecidableEq

/-- `GaussianModel.act` (lines 136–174) for a model whose
`_instantiator_net is None` (the subclass-override path of the class
documentation; `compute` is the injected provider).  Returns the updated
transient state together with `(actions, log_prob, actions_mean)`.
`inference=True` only detaches the returned tensors from autodiff, which
leaves their values unchanged. -/
def GaussianModel.act (m : GaussianModel) (ops : RealOps) (compute : ComputeFn)
    (states : Tensor2) (taken_actions : Option Tensor2) (inference : Bool)
    (role : String) (noise : Tensor2) : GaussianModel × ActOutput :=
  -- map from states/observations to mean actions and log standard deviations
  let actions_mean : Tensor2 := (compute states taken_actions role).1
  -- clamp log standard deviations
  let log_std : Tensor1 := m.clampLogStd (compute states taken_actions role).2
  -- distribution
  let dist : NormalDist := m.builtDist ops actions_mean (compute states taken_actions role).2
  let mState : GaussianModel :=
    { m with _log_std := some log_std
             _num_samples := some actions_mean.length
             _distribution := some dist }
  -- sample using the reparameterization trick, then clip actions
  let actions : Tensor2 := m.clipActionsStep (dist.rsample noise)
  -- log of the probability density function
  let log_prob : Tensor2 := m.reduceLogProb (dist.log_prob ops (taken_actions.getD actions))
  (mState, { actions := actions, log_prob := log_prob, mean_actions := actions_mean })

/-- `get_entropy` returns a rank-0 scalar before the first `act` call and a
rank-2 batch afterwards; this sum of the two ranks is its result type. -/
inductive TensorResult where
  | scalar : ℚ → TensorResult
  | matrix : Tensor2 → TensorResult
deriving DecidableEq

/-- `GaussianModel.get_entropy` (lines 176–190). -/
def GaussianModel.get_entropy (m : GaussianModel) (ops : RealOps) : TensorResult :=
  match m._distribution with
  | none => TensorResult.scalar 0
  | some d => TensorResult.matrix (d.entropy ops)

/-- `GaussianModel.get_log_std` (lines 192–204):
`self._log_std.repeat(self._num_samples, 1)`.  On the per-dimension `[D]`
log-std this yields `[N, D]`; when `act` has never run, `_log_std` is
`None` and the attribute access fails (spec class: `NotYetComputed`). -/
def GaussianModel.get_log_std (m : GaussianModel) : Except ModelError Tensor2 :=
  match m._log_std, m._num_samples with
  | some ls, some n => Except.ok (List.replicate n ls)
  | _, _ => Except.error ModelError.notYetComputed

/-- `GaussianModel.distribution` (lines 206–218). -/
def GaussianModel.distribution (m : GaussianModel) : Option NormalDist :=
  m._distribution

/-- Shape predicate: `t` is a `[n, d]` batch. -/
def hasShape (t : Tensor2) (n d : ℕ) : Prop :=
  t.length = n ∧ ∀ row ∈ t, row.length = d

instance (t : Tensor2) (n d : ℕ) : Decidable (hasShape t n d) := by
  unfold hasShape; infer_instance

/-! ### List-level helper lemmas -/

theorem length_zipWith3 (f : ℚ → ℚ → ℚ → ℚ) :
    ∀ (as bs cs : List ℚ),
      (zipWith3 f as bs cs).length = min as.length (min bs.length cs.length)
  | [], _, _ => by cases ‹List ℚ› <;> simp [zipWith3]
  | _ :: _, [], _ => by simp [zipWith3]
  | _ :: _, _ :: _, [] => by simp [zipWith3]
  | a :: as, b :: bs, c :: cs => by
      simp only [zipWith3, List.length_cons, length_zipWith3 f as bs cs]
      omega

theorem get_zipWith3 (f : ℚ → ℚ → ℚ → ℚ) :
    ∀ (as bs cs : List ℚ) (i : ℕ) (h : i < (zipWith3 f as bs cs).length),
      ∃ (ha : i < as.length) (hb : i < bs.length) (hc : i < cs.length),
        (zipWith3 f as bs cs).get ⟨i, h⟩ =
          f (as.get ⟨i, ha⟩) (bs.get ⟨i, hb⟩) (cs.get ⟨i, hc⟩)
  | a :: as, b :: bs, c :: cs, 0, _ =>
      ⟨Nat.succ_pos _, Nat.succ_pos _, Nat.succ_pos _, rfl⟩
  | a :: as, b :: bs, c :: cs, i + 1, h => by
      have h0 : i < (zipWith3 f as bs cs).length := Nat.lt_of_succ_lt_succ h
      obtain ⟨ha, hb, hc, hrec⟩ := get_zipWith3 f as bs cs i h0
      exact ⟨Nat.succ_lt_succ ha, Nat.succ_lt_succ hb, Nat.succ_lt_succ hc, hrec⟩

theorem of_mem_zipWith {α β γ : Type} (f : α → β → γ) :
    ∀ (as : List α) (bs : List β) (c : γ),
      c ∈ List.zipWith f as bs → ∃ x ∈ as, ∃ y ∈ bs, c = f x y
  | a :: as, b :: bs, c, h => by
      rcases List.mem_cons.mp h with h0 | h0
      · exact ⟨a, List.mem_cons_self a as, b, List.mem_cons_self b bs, h0⟩
      · obtain ⟨x, hx, y, hy, rfl⟩ := of_mem_zipWith f as bs c h0
        exact ⟨x, List.mem_cons_of_mem a hx, y, List.mem_cons_of_mem b hy, rfl⟩

theorem hasShape_zipWith (g : Tensor1 → Tensor1 → Tensor1) (A B : Tensor2) (n e : ℕ)
    (hA : A.length = n) (hB : B.length = n)
    (hrow : ∀ a ∈ A, ∀ b ∈ B, (g a b).length = e) :
    hasShape (List.zipWith g A B) n e := by
  constructor
  · simp [List.length_zipWith, hA, hB]
  · intro row hmem
    obtain ⟨a, ha, b, hb, rfl⟩ := of_mem_zipWith g A B row hmem
    exact hrow a ha b hb

theorem hasShape_map (g : Tensor1 → Tensor1) (A : Tensor2) (n e : ℕ)
    (hA : A.length = n) (hrow : ∀ a ∈ A, (g a).length = e) :
    hasShape (A.map g) n e := by
  constructor
  · simp [hA]
  · intro row hmem
    obtain ⟨a, ha, rfl⟩ := List.mem_map.mp hmem
    exact hrow a ha

theorem clampLogStd_length (m : GaussianModel) (ls : Tensor1) :
    (m.clampLogStd ls).length = ls.length := by
  unfold GaussianModel.clampLogStd
  split <;> simp

theorem clampLogStd_mem_bounds (m : GaussianModel) (ls : Tensor1)
    (hclip : m.clip_log_std = true) (hle : m.log_std_min ≤ m.log_std_max) :
    ∀ x ∈ m.clampLogStd ls, m.log_std_min ≤ x ∧ x ≤ m.log_std_max := by
  intro x hx
  unfold GaussianModel.clampLogStd at hx
  rw [hclip] at hx
  simp only [if_true, List.mem_map] at hx
  obtain ⟨y, _, rfl⟩ := hx
  exact ⟨le_min (le_max_right y m.log_std_min) hle, min_le_right _ _⟩

/-! ### Concrete fixtures used by the witnesses -/

/-- A concrete stand-in for the runtime's transcendental primitives. -/
def opsTest : RealOps := { exp := fun _ => 1, log := fun _ => 0, halfLog2Pi := 0 }

/-- A concrete model: `clip_log_std=True`, default bounds, `reduction="sum"`,
no action clipping, no `act` call recorded yet. -/
def mTest : GaussianModel :=
  { clip_actions := false
    clip_actions_min := []
    clip_actions_max := []
    clip_log_std := true
    log_std_min := -20
    log_std_max := 2
    _log_std := none
    _num_samples := none
    _distribution := none
    _reduction := some ReductionFn.tsum }

/-- A provider returning a log-std far outside the clamp range (±1000). -/
def fTest : ComputeFn := fun _ _ _ => ([[0, 0]], [1000, -1000])

/-! ### Claims -/

/-- C1: in `act` with `clip_log_std` set (and a well-formed range
`log_std_min ≤ log_std_max`), the log-std recorded in the transient state
is the element-wise clamp of the provider's log-std into
`[log_std_min, log_std_max]` — every element lies in that interval — and
the distribution is built from exactly that clamped log-std
(`Normal(actions_mean, clamped_log_std.exp())`), for every provider
output. -/
theorem act_clamps_log_std (m : GaussianModel) (ops : RealOps) (f : ComputeFn)
    (states : Tensor2) (ta : Option Tensor2) (inference : Bool) (role : String)
    (noise : Tensor2)
    (hclip : m.clip_log_std = true) (hle : m.log_std_min ≤ m.log_std_max) :
    ∃ L : Tensor1,
      ((m.act ops f states ta inference role noise).1)._log_std = some L ∧
      (∀ x ∈ L, m.log_std_min ≤ x ∧ x ≤ m.log_std_max) ∧
      ((m.act ops f states ta inference role noise).1)._distribution =
        some { loc := (f states ta role).1, scale := L.map ops.exp } := by
  refine ⟨m.clampLogStd (f states ta role).2, rfl, ?_, rfl⟩
  exact clampLogStd_mem_bounds m _ hclip hle

/-- Witness for C1: a provider returning log-std `[1000, -1000]` under the
default range `[-20, 2]`. -/
theorem act_clamps_log_std_witness :
    ∃ L : Tensor1,
      ((mTest.act opsTest fTest [[1]] none false "" [[0, 0]]).1)._log_std = some L ∧
      (∀ x ∈ L, mTest.log_std_min ≤ x ∧ x ≤ mTest.log_std_max) ∧
      ((mTest.act opsTest fTest [[1]] none false "" [[0, 0]]).1)._distribution =
        some { loc := (fTest [[1]] none "").1, scale := L.map opsTest.exp } :=
  act_clamps_log_std mTest opsTest fTest [[1]] none false "" [[0, 0]] rfl
    (by norm_num [mTest])

/-- C2: `act` evaluates the log-probability under the Gaussian built from
the (clamped) mean/log-std at `taken_actions` whenever they are supplied,
and otherwise at the sampled action after the optional action clamp; for a
provider whose output does not depend on `taken_actions` (the documented
critic-style reuse) and a fixed sampling noise, the returned action is
unaffected by `taken_actions`, and the returned `log_prob` differs between
two `taken_actions` with different reduced densities. -/
theorem act_log_prob_uses_taken_actions
    (m : GaussianModel) (ops : RealOps) (f : ComputeFn) (states : Tensor2)
    (t1 t2 : Tensor2) (inference : Bool) (role : String) (noise : Tensor2)
    (hf : ∀ ta : Option Tensor2, f states ta role = f states none role) :
    ((m.act ops f states (some t1) inference role noise).2).actions =
      ((m.act ops f states (some t2) inference role noise).2).actions ∧
    (∀ t : Tensor2,
      ((m.act ops f states (some t) inference role noise).2).log_prob =
        m.reduceLogProb
          ((m.builtDist ops (f states none role).1 (f states none role).2).log_prob ops t)) ∧
    ((m.act ops f states none inference role noise).2).log_prob =
      m.reduceLogProb
        ((m.builtDist ops (f states none role).1 (f states none role).2).log_prob ops
          ((m.act ops f states none inference role noise).2).actions) ∧
    (m.reduceLogProb
        ((m.builtDist ops (f states none role).1 (f states none role).2).log_prob ops t1) ≠
      m.reduceLogProb
        ((m.builtDist ops (f states none role).1 (f states none role).2).log_prob ops t2) →
      ((m.act ops f states (some t1) inference role noise).2).log_prob ≠
        ((m.act ops f states (some t2) inference role noise).2).log_prob) := by
  have h2 : ∀ t : Tensor2,
      ((m.act ops f states (some t) inference role noise).2).log_prob =
        m.reduceLogProb
          ((m.builtDist ops (f states none role).1 (f states none role).2).log_prob ops t) := by
    intro t
    simp only [GaussianModel.act, hf, Option.getD]
  refine ⟨?_, h2, ?_, ?_⟩
  · simp only [GaussianModel.act, hf]
  · simp only [GaussianModel.act, hf, Option.getD]
  · intro hne heq
    rw [h2 t1, h2 t2] at heq
    exact hne heq

/-- A provider that ignores its inputs: constant unit-Gaussian head. -/
def fConst : ComputeFn := fun _ _ _ => ([[0]], [0])

/-- Witness for C2: constant provider, noise fixed at `[[0]]`, two
different `taken_actions`. -/
theorem act_log_prob_uses_taken_actions_witness :
    ((mTest.act opsTest fConst [[1]] (some [[0]]) false "" [[0]]).2).actions =
      ((mTest.act opsTest fConst [[1]] (some [[2]]) false "" [[0]]).2).actions ∧
    (∀ t : Tensor2,
      ((mTest.act opsTest fConst [[1]] (some t) false "" [[0]]).2).log_prob =
        mTest.reduceLogProb
          ((mTest.builtDist opsTest (fConst [[1]] none "").1 (fConst [[1]] none "").2).log_prob
            opsTest t)) ∧
    ((mTest.act opsTest fConst [[1]] none false "" [[0]]).2).log_prob =
      mTest.reduceLogProb
        ((mTest.builtDist opsTest (fConst [[1]] none "").1 (fConst [[1]] none "").2).log_prob
          opsTest ((mTest.act opsTest fConst [[1]] none false "" [[0]]).2).actions) ∧
    (mTest.reduceLogProb
        ((mTest.builtDist opsTest (fConst [[1]] none "").1 (fConst [[1]] none "").2).log_prob
          opsTest [[0]]) ≠
      mTest.reduceLogProb
        ((mTest.builtDist opsTest (fConst [[1]] none "").1 (fConst [[1]] none "").2).log_prob
          opsTest [[2]]) →
      ((mTest.act opsTest fConst [[1]] (some [[0]]) false "" [[0]]).2).log_prob ≠
        ((mTest.act opsTest fConst [[1]] (some [[2]]) false "" [[0]]).2).log_prob) :=
  act_log_prob_uses_taken_actions mTest opsTest fConst [[1]] [[0]] [[2]] false "" [[0]]
    (fun _ => rfl)

/-- Evaluation of `GaussianModel.make` on any accepted `reduction`:
the `ValueError` branch is not taken and the stored configuration is the
one `__init__` computes. -/
theorem make_ok (action_space : Option (Tensor1 × Tensor1))
    (car cls : Bool) (mn mx : ℚ) (red : String)
    (hred : red ∈ ["mean", "sum", "prod", "none"]) :
    GaussianModel.make action_space car cls mn mx red = Except.ok
      { clip_actions := car && action_space.isSome
        clip_actions_min :=
          if car && action_space.isSome then (action_space.getD ([], [])).1 else []
        clip_actions_max :=
          if car && action_space.isSome then (action_space.getD ([], [])).2 else []
        clip_log_std := cls
        log_std_min := mn
        log_std_max := mx
        _log_std := none
        _num_samples := none
        _distribution := none
        _reduction :=
          if red == "mean" then some ReductionFn.tmean
          else if red == "sum" then some ReductionFn.tsum
          else if red == "prod" then some ReductionFn.tprod
          else none } := by
  simp only [GaussianModel.make]
  rw [if_neg (not_not_intro hred)]

/-- C5: construction resolves the stored `clip_actions` flag to
`requested AND bounds-available`; when the action descriptor carries no
bounds the resolved flag is `false` and `act` never clamps — its returned
action is the raw reparameterized sample — with no error raised. -/
theorem make_resolves_clip_actions (action_space : Option (Tensor1 × Tensor1))
    (car cls : Bool) (mn mx : ℚ) (red : String)
    (hred : red ∈ ["mean", "sum", "prod", "none"]) :
    ∃ m : GaussianModel,
      GaussianModel.make action_space car cls mn mx red = Except.ok m ∧
      m.clip_actions = (car && action_space.isSome) ∧
      (action_space = none →
        m.clip_actions = false ∧
        ∀ (ops : RealOps) (f : ComputeFn) (states : Tensor2) (ta : Option Tensor2)
          (inference : Bool) (role : String) (noise : Tensor2),
          ((m.act ops f states ta inference role noise).2).actions =
            (m.builtDist ops (f states ta role).1 (f states ta role).2).rsample noise) := by
  refine ⟨_, make_ok action_space car cls mn mx red hred, rfl, ?_⟩
  rintro rfl
  refine ⟨by simp, ?_⟩
  intro ops f states ta inference role noise
  simp [GaussianModel.act, GaussianModel.clipActionsStep]

/-- Witness for C5: `clip_actions=True` requested with a bare-shape action
descriptor (no bounds). -/
theorem make_resolves_clip_actions_witness :
    ∃ m : GaussianModel,
      GaussianModel.make none true true (-20) 2 "sum" = Except.ok m ∧
      m.clip_actions = (true && (none : Option (Tensor1 × Tensor1)).isSome) ∧
      ((none : Option (Tensor1 × Tensor1)) = none →
        m.clip_actions = false ∧
        ∀ (ops : RealOps) (f : ComputeFn) (states : Tensor2) (ta : Option Tensor2)
          (inference : Bool) (role : String) (noise : Tensor2),
          ((m.act ops f states ta inference role noise).2).actions =
            (m.builtDist ops (f states ta role).1 (f states ta role).2).rsample noise) :=
  make_resolves_clip_actions none true true (-20) 2 "sum" (by decide)

/-- C7: on a freshly constructed model (no `act` call yet) `get_log_std`
fails with the `NotYetComputed`-class error instead of returning a value. -/
theorem get_log_std_before_act (action_space : Option (Tensor1 × Tensor1))
    (car cls : Bool) (mn mx : ℚ) (red : String) (m : GaussianModel)
    (hmk : GaussianModel.make action_space car cls mn mx red = Except.ok m) :
    m.get_log_std = Except.error ModelError.notYetComputed := by
  simp only [GaussianModel.make] at hmk
  split at hmk
  · exact Except.noConfusion hmk
  · cases hmk
    rfl

/-- Witness for C7. -/
theorem get_log_std_before_act_witness :
    ∃ m : GaussianModel,
      GaussianModel.make none false true (-20) 2 "sum" = Except.ok m ∧
      m.get_log_std = Except.error ModelError.notYetComputed :=
  ⟨_, rfl, get_log_std_before_act none false true (-20) 2 "sum" _ rfl⟩

/-- C9: construction with a `reduction` outside
`{mean, sum, prod, none}` fails immediately with the
`InvalidConfiguration`-class error whose message enumerates the four
accepted values; with any accepted value construction succeeds. -/
theorem make_validates_reduction (action_space : Option (Tensor1 × Tensor1))
    (car cls : Bool) (mn mx : ℚ) (red : String) :
    (red ∉ ["mean", "sum", "prod", "none"] →
      GaussianModel.make action_space car cls mn mx red =
        Except.error (ModelError.invalidConfiguration reductionErrorMessage) ∧
      ∀ v ∈ ["mean", "sum", "prod", "none"],
        charsContain v.toList reductionErrorMessage.toList = true) ∧
    (red ∈ ["mean", "sum", "prod", "none"] →
      ∃ m, GaussianModel.make action_space car cls mn mx red = Except.ok m) := by
  constructor
  · intro h
    refine ⟨?_, by decide⟩
    simp only [GaussianModel.make]
    rw [if_pos h]
  · intro h
    exact ⟨_, make_ok action_space car cls mn mx red h⟩

/-- Witness for C9: `reduction="invalid"` errors, `reduction="sum"`
succeeds. -/
theorem make_validates_reduction_witness :
    GaussianModel.make none false true (-20) 2 "invalid" =
      Except.error (ModelError.invalidConfiguration reductionErrorMessage) ∧
    ∃ m, GaussianModel.make none false true (-20) 2 "sum" = Except.ok m :=
  ⟨((make_validates_reduction none false true (-20) 2 "invalid").1 (by decide)).1,
   (make_validates_reduction none false true (-20) 2 "sum").2 (by decide)⟩

/-- C3: for a batch of size `n` with action dimension `d` (provider mean
`[n, d]`, log-std `[d]`, noise `[n, d]`, `taken_actions` `[n, d]` when
supplied, bounds of width `d` when clipping is on), the `log_prob`
component returned by `act` has shape `[n, 1]` when the configured
reduction is one of `sum`/`mean`/`prod` (`_reduction` is a stored
function) and `[n, d]` when the reduction is `none`. -/
theorem act_log_prob_shape (m : GaussianModel) (ops : RealOps) (f : ComputeFn)
    (states : Tensor2) (ta : Option Tensor2) (inference : Bool) (role : String)
    (noise : Tensor2) (n d : ℕ)
    (hmean : hasShape (f states ta role).1 n d)
    (hd : (f states ta role).2.length = d)
    (hnoise : hasShape noise n d)
    (hta : ∀ t, ta = some t → hasShape t n d)
    (hbounds : m.clip_actions = true →
      m.clip_actions_min.length = d ∧ m.clip_actions_max.length = d) :
    (m._reduction ≠ none →
      hasShape ((m.act ops f states ta inference role noise).2).log_prob n 1) ∧
    (m._reduction = none →
      hasShape ((m.act ops f states ta inference role noise).2).log_prob n d) := by
  have hscale :
      (m.builtDist ops (f states ta role).1 (f states ta role).2).scale.length = d := by
    simp [GaussianModel.builtDist, clampLogStd_length, hd]
  have hsample :
      hasShape ((m.builtDist ops (f states ta role).1 (f states ta role).2).rsample noise)
        n d := by
    unfold NormalDist.rsample
    apply hasShape_zipWith _ _ _ n d hmean.1 hnoise.1
    intro a ha b hb
    rw [length_zipWith3, hmean.2 a ha, hnoise.2 b hb, hscale]
    simp
  have hactions :
      hasShape
        (m.clipActionsStep
          ((m.builtDist ops (f states ta role).1 (f states ta role).2).rsample noise))
        n d := by
    unfold GaussianModel.clipActionsStep
    split
    · rename_i h
      unfold clampRows
      apply hasShape_map _ _ n d hsample.1
      intro a ha
      rw [length_zipWith3, hsample.2 a ha, (hbounds h).1, (hbounds h).2]
      simp
    · exact hsample
  have hvalue :
      hasShape
        (ta.getD
          (m.clipActionsStep
            ((m.builtDist ops (f states ta role).1 (f states ta role).2).rsample noise)))
        n d := by
    cases ta with
    | none => exact hactions
    | some t => exact hta t rfl
  have hlp :
      hasShape
        ((m.builtDist ops (f states ta role).1 (f states ta role).2).log_prob ops
          (ta.getD
            (m.clipActionsStep
              ((m.builtDist ops (f states ta role).1 (f states ta role).2).rsample noise))))
        n d := by
    unfold NormalDist.log_prob
    apply hasShape_zipWith _ _ _ n d hvalue.1 hmean.1
    intro a ha b hb
    rw [length_zipWith3, hvalue.2 a ha, hmean.2 b hb, hscale]
    simp
  constructor
  · intro hred
    obtain ⟨r, hr⟩ := Option.ne_none_iff_exists'.mp hred
    simp only [GaussianModel.act, GaussianModel.reduceLogProb, hr]
    refine ⟨?_, ?_⟩
    · simp [hlp.1]
    · intro row hrow
      obtain ⟨v, _, rfl⟩ := List.mem_map.mp hrow
      rfl
  · intro hr
    simp only [GaussianModel.act, GaussianModel.reduceLogProb, hr]
    exact hlp

/-- Witness for C3: batch size 1, action dimension 2, `reduction="sum"`. -/
theorem act_log_prob_shape_witness :
    (mTest._reduction ≠ none →
      hasShape ((mTest.act opsTest fTest [[1]] none false "" [[0, 0]]).2).log_prob 1 1) ∧
    (mTest._reduction = none →
      hasShape ((mTest.act opsTest fTest [[1]] none false "" [[0, 0]]).2).log_prob 1 2) :=
  act_log_prob_shape mTest opsTest fTest [[1]] none false "" [[0, 0]] 1 2
    (by constructor <;> simp [fTest])
    rfl
    (by constructor <;> simp)
    (fun t h => Option.noConfusion h)
    (fun h => Bool.noConfusion h)

/-- C4: when the resolved `clip_actions` flag is true with well-formed
per-dimension bounds, the action returned by `act` is the raw
reparameterized sample clamped into the bounds — strictly after sampling —
every element lies within its dimension's `[low, high]` for every noise
value, and (when `taken_actions` is absent) the log-probability is
evaluated at the clamped action, i.e. strictly after the clamp. -/
theorem act_clips_actions_within_bounds (m : GaussianModel) (ops : RealOps)
    (f : ComputeFn) (states : Tensor2) (ta : Option Tensor2) (inference : Bool)
    (role : String) (noise : Tensor2)
    (hclip : m.clip_actions = true)
    (hb : ∀ (i : ℕ) (h1 : i < m.clip_actions_min.length)
        (h2 : i < m.clip_actions_max.length),
        m.clip_actions_min.get ⟨i, h1⟩ ≤ m.clip_actions_max.get ⟨i, h2⟩) :
    ((m.act ops f states ta inference role noise).2).actions =
      clampRows ((m.builtDist ops (f states ta role).1 (f states ta role).2).rsample noise)
        m.clip_actions_min m.clip_actions_max ∧
    (ta = none →
      ((m.act ops f states ta inference role noise).2).log_prob =
        m.reduceLogProb
          ((m.builtDist ops (f states ta role).1 (f states ta role).2).log_prob ops
            ((m.act ops f states ta inference role noise).2).actions)) ∧
    ∀ row ∈ ((m.act ops f states ta inference role noise).2).actions,
      ∀ (i : ℕ) (h : i < row.length) (h1 : i < m.clip_actions_min.length)
        (h2 : i < m.clip_actions_max.length),
        m.clip_actions_min.get ⟨i, h1⟩ ≤ row.get ⟨i, h⟩ ∧
        row.get ⟨i, h⟩ ≤ m.clip_actions_max.get ⟨i, h2⟩ := by
  have hact : ((m.act ops f states ta inference role noise).2).actions =
      clampRows ((m.builtDist ops (f states ta role).1 (f states ta role).2).rsample noise)
        m.clip_actions_min m.clip_actions_max := by
    simp only [GaussianModel.act, GaussianModel.clipActionsStep, hclip, if_true]
  refine ⟨hact, ?_, ?_⟩
  · rintro rfl
    simp only [GaussianModel.act, Option.getD]
  · intro row hrow i h h1 h2
    rw [hact] at hrow
    obtain ⟨r, hr, rfl⟩ := List.mem_map.mp hrow
    obtain ⟨ha, hbb, hcc, heq⟩ :=
      get_zipWith3 (fun a l hgh => min (max a l) hgh) r m.clip_actions_min
        m.clip_actions_max i h
    rw [heq]
    exact ⟨le_min (le_max_right _ _) (hb i hbb hcc), min_le_right _ _⟩

/-- A model with action clipping enabled and bounds `low=[-1,-1]`,
`high=[1,1]`. -/
def mClip : GaussianModel :=
  { clip_actions := true
    clip_actions_min := [-1, -1]
    clip_actions_max := [1, 1]
    clip_log_std := true
    log_std_min := -20
    log_std_max := 2
    _log_std := none
    _num_samples := none
    _distribution := none
    _reduction := some ReductionFn.tsum }

/-- Witness for C4: noise `[[5, -5]]` drives the raw unit-Gaussian sample
to `±5`, outside the `[-1, 1]` bounds. -/
theorem act_clips_actions_within_bounds_witness :
    ((mClip.act opsTest fTest [[1]] none false "" [[5, -5]]).2).actions =
      clampRows
        ((mClip.builtDist opsTest (fTest [[1]] none "").1 (fTest [[1]] none "").2).rsample
          [[5, -5]])
        mClip.clip_actions_min mClip.clip_actions_max ∧
    ((none : Option Tensor2) = none →
      ((mClip.act opsTest fTest [[1]] none false "" [[5, -5]]).2).log_prob =
        mClip.reduceLogProb
          ((mClip.builtDist opsTest (fTest [[1]] none "").1 (fTest [[1]] none "").2).log_prob
            opsTest ((mClip.act opsTest fTest [[1]] none false "" [[5, -5]]).2).actions)) ∧
    ∀ row ∈ ((mClip.act opsTest fTest [[1]] none false "" [[5, -5]]).2).actions,
      ∀ (i : ℕ) (h : i < row.length) (h1 : i < mClip.clip_actions_min.length)
        (h2 : i < mClip.clip_actions_max.length),
        mClip.clip_actions_min.get ⟨i, h1⟩ ≤ row.get ⟨i, h⟩ ∧
        row.get ⟨i, h⟩ ≤ mClip.clip_actions_max.get ⟨i, h2⟩ :=
  act_clips_actions_within_bounds mClip opsTest fTest [[1]] none false "" [[5, -5]] rfl
    (by
      intro i h1 h2
      simp only [mClip, List.length_cons, List.length_nil] at h1
      interval_cases i <;> norm_num [mClip])

/-- C6: after an `act` call whose provider produced a `[N, D]` mean and a
`[D]` log-std, `get_log_std()` returns a `[N, D]` tensor each of whose
rows equals the clamped log-std recorded by that call (the stored log-std
repeated across the recorded batch size). -/
theorem get_log_std_after_act (m : GaussianModel) (ops : RealOps) (f : ComputeFn)
    (states : Tensor2) (ta : Option Tensor2) (inference : Bool) (role : String)
    (noise : Tensor2) (n d : ℕ)
    (hn : (f states ta role).1.length = n)
    (hd : (f states ta role).2.length = d) :
    ∃ L : Tensor1,
      ((m.act ops f states ta inference role noise).1)._log_std = some L ∧
      L = m.clampLogStd (f states ta role).2 ∧
      ((m.act ops f states ta inference role noise).1).get_log_std =
        Except.ok (List.replicate n L) ∧
      hasShape (List.replicate n L) n d ∧
      ∀ row ∈ List.replicate n L, row = L := by
  refine ⟨m.clampLogStd (f states ta role).2, rfl, rfl, ?_, ?_, ?_⟩
  · simp only [GaussianModel.act, GaussianModel.get_log_std]
    rw [hn]
  · exact ⟨List.length_replicate n _, fun row hrow => by
      rw [List.eq_of_mem_replicate hrow, clampLogStd_length, hd]⟩
  · intro row hrow
    exact List.eq_of_mem_replicate hrow

/-- Witness for C6: batch size 1, action dimension 2, provider `fTest`. -/
theorem get_log_std_after_act_witness :
    ∃ L : Tensor1,
      ((mTest.act opsTest fTest [[1]] none false "" [[0, 0]]).1)._log_std = some L ∧
      L = mTest.clampLogStd (fTest [[1]] none "").2 ∧
      ((mTest.act opsTest fTest [[1]] none false "" [[0, 0]]).1).get_log_std =
        Except.ok (List.replicate 1 L) ∧
      hasShape (List.replicate 1 L) 1 2 ∧
      ∀ row ∈ List.replicate 1 L, row = L :=
  get_log_std_after_act mTest opsTest fTest [[1]] none false "" [[0, 0]] 1 2 rfl rfl

/-- C8: `get_entropy()` on a freshly constructed model returns the scalar
`0.0` instead of failing; after an `act` call whose provider produced a
`[N, D]` mean and `[D]` log-std, it returns the per-dimension entropy of
the distribution built by that call, shape `[N, D]`. -/
theorem get_entropy_default_and_shape (action_space : Option (Tensor1 × Tensor1))
    (car cls : Bool) (mn mx : ℚ) (red : String) (m0 : GaussianModel)
    (hmk : GaussianModel.make action_space car cls mn mx red = Except.ok m0)
    (m : GaussianModel) (ops : RealOps) (f : ComputeFn) (states : Tensor2)
    (ta : Option Tensor2) (inference : Bool) (role : String) (noise : Tensor2)
    (n d : ℕ)
    (hn : (f states ta role).1.length = n)
    (hd : (f states ta role).2.length = d) :
    m0.get_entropy ops = TensorResult.scalar 0 ∧
    ∃ T : Tensor2,
      ((m.act ops f states ta inference role noise).1).get_entropy ops =
        TensorResult.matrix T ∧
      T = (m.builtDist ops (f states ta role).1 (f states ta role).2).entropy ops ∧
      hasShape T n d := by
  constructor
  · simp only [GaussianModel.make] at hmk
    split at hmk
    · exact Except.noConfusion hmk
    · cases hmk
      rfl
  · refine ⟨_, rfl, rfl, ?_, ?_⟩
    · simp [NormalDist.entropy, GaussianModel.builtDist, hn]
    · intro row hrow
      simp only [NormalDist.entropy, GaussianModel.builtDist, List.mem_map] at hrow
      obtain ⟨a, ha, rfl⟩ := hrow
      simp [clampLogStd_length, hd]

/-- Witness for C8: the default-constructed model before `act`, then an
`act` call with batch size 1 and action dimension 2. -/
theorem get_entropy_default_and_shape_witness :
    mTest.get_entropy opsTest = TensorResult.scalar 0 ∧
    ∃ T : Tensor2,
      ((mTest.act opsTest fTest [[1]] none false "" [[0, 0]]).1).get_entropy opsTest =
        TensorResult.matrix T ∧
      T = (mTest.builtDist opsTest (fTest [[1]] none "").1 (fTest [[1]] none "").2).entropy
            opsTest ∧
      hasShape T 1 2 :=
  get_entropy_default_and_shape none false true (-20) 2 "sum" mTest rfl
    mTest opsTest fTest [[1]] none false "" [[0, 0]] 1 2 rfl rfl

/-- C10: the third component of `act`'s return is exactly the mean produced
by the provider's `compute`, untouched by action clamping and by log-std
clamping, for every model configuration and every input. -/
theorem act_returns_unmodified_mean (m : GaussianModel) (ops : RealOps)
    (f : ComputeFn) (states : Tensor2) (ta : Option Tensor2) (inference : Bool)
    (role : String) (noise : Tensor2) :
    ((m.act ops f states ta inference role noise).2).mean_actions =
      (f states ta role).1 := rfl

end Skrl
